import Mathlib

/-!
# Verification of `thalassa/api.py`

A shallow embedding of the functions of `thalassa/api.py` (the Thalassa
dashboard's data/plotting pipeline), with theorems checking the
natural-language specification against it.

Modelling conventions:
* coordinates and data values are rationals (`ℚ`); a NaN value is `none`
  in an `Option ℚ` (xarray's linear interpolation propagates NaN);
* an `xr.Dataset` is a `Dataset` structure carrying the node coordinates,
  the time axis, the data of the one variable under discussion
  (time-major, and per-layer when the dataset has a vertical dimension)
  and the `triface_nodes` connectivity table;
* the rasterized field (a holoviews `DynamicMap` whose first element's
  data is an xarray dataset over `lon`/`lat` grid axes) is a `Raster`
  structure holding the grid coordinates and the gridded values;
* Python exceptions are the `error` case of `Except`;
* holoviews objects keep only the content the spec talks about: an
  `hv.Curve` is its data plus its title data (variable name and the two
  coordinates printed in the title; the `:.3f` float formatting is pure
  rendering and is not modelled), a `DynamicMap` is its callback plus the
  stream it is attached to.
-/

/-- A value of the rasterized field: `none` models NaN. -/
abbrev Val := Option ℚ

/-- The xarray dataset extracted from the rasterized `DynamicMap`
(`raster.values()[0].data` in the code): grid coordinates `lons`/`lats`
(as produced by datashader, each axis in increasing order) and the
gridded values of the data variable, `vals[i][j]` sitting at
`(lons[i], lats[j])`. -/
structure Raster where
  lons : List ℚ
  lats : List ℚ
  vals : List (List Val)
deriving Repr, DecidableEq

/-- Locate `x` on the 1-d grid axis `xs` the way `xr.interp` (linear
method, no extrapolation) does: out of the axis range the result is NaN,
i.e. `none`; otherwise return the index of the grid segment containing
`x` together with the linear weight inside that segment. -/
def findSeg : List ℚ → ℚ → Option (ℕ × ℚ)
  | a :: b :: rest, x =>
      if a ≤ x ∧ x ≤ b then
        some (0, if b = a then 0 else (x - a) / (b - a))
      else
        (findSeg (b :: rest) x).map (fun p => (p.1 + 1, p.2))
  | _, _ => none

/-- Out-of-range points get NaN (no extrapolation), in-range points are
located by `findSeg`. -/
def findCell (xs : List ℚ) (x : ℚ) : Option (ℕ × ℚ) :=
  match xs with
  | [] => none
  | y :: ys =>
      if x < y ∨ (y :: ys).getLastD 0 < x then none
      else findSeg (y :: ys) x

/-- Model of `raster_dataset[data_var_name].interp(dict(lon=lon, lat=lat))`:
bilinear interpolation on the raster grid.  NaN (`none`) at any corner of
the containing cell, or an out-of-range coordinate, makes the result NaN
(`none`) — `0 * NaN` is still NaN, as in numpy. -/
def interp (r : Raster) (lon lat : ℚ) : Option ℚ := do
  let (i, wx) ← findCell r.lons lon
  let (j, wy) ← findCell r.lats lat
  let v00 ← (r.vals.getD i []).getD j none
  let v01 ← (r.vals.getD i []).getD (j + 1) none
  let v10 ← (r.vals.getD (i + 1) []).getD j none
  let v11 ← (r.vals.getD (i + 1) []).getD (j + 1) none
  pure (v00 * (1 - wx) * (1 - wy) + v10 * wx * (1 - wy)
      + v01 * (1 - wx) * wy + v11 * wx * wy)

/-- `is_point_in_the_mesh` (api.py:79-84): interpolate the raster's data
variable at the point and report `True` exactly when the interpolated
value is not NaN (`~np.isnan(interpolated)`). -/
def is_point_in_the_mesh (raster : Raster) (lon lat : ℚ) : Bool :=
  (interp raster lon lat).isSome

/-- An `xr.Dataset` as used by api.py, restricted to the content the
functions touch: the `node` coordinate values, the node `lon`/`lat`
coordinates, the `time` axis labels, the data of the variable under
discussion (`data[t][n]` at time index `t`, node index `n`; when the
dataset has a vertical dimension the unselected data lives in
`layerData[l][t][n]`), and the `triface_nodes` connectivity table. -/
structure Dataset where
  node : List ℕ
  lon : List ℚ
  lat : List ℚ
  times : List String
  data : List (List ℚ)
  layerData : List (List (List ℚ))
  triface_nodes : List (ℕ × ℕ × ℕ)
deriving Repr, DecidableEq

/-- Number of nodes of the dataset (the size of the `node` dimension). -/
def Dataset.nNodes (ds : Dataset) : ℕ := ds.lon.length

/-- `ds.isel(layer=l)`: select one vertical layer; the variable's data
becomes the selected layer's time/node table. -/
def isel_layer (ds : Dataset) (l : ℕ) : Dataset :=
  { ds with data := ds.layerData.getD l [], layerData := [] }

/-- `ds[["lon", "lat", variable]]`: keep the coordinates and the one data
variable, dropping the other data variables (the connectivity table). -/
def select_vars (ds : Dataset) : Dataset :=
  { ds with triface_nodes := [] }

/-- `ds[variable].isel(node=i)`: the full time series of node `i`. -/
def tsAtNode (ds : Dataset) (i : ℕ) : List ℚ :=
  ds.data.map (fun row => row.getD i 0)

/-- Modelled from the spec: `get_index_of_nearest_node` is imported from
`thalassa/utils.py`, which is not among the provided sources.  The spec
describes it as a nearest-neighbor spatial search: it returns the index
of the mesh node nearest to the query point.  Modelled as the argmin of
the squared euclidean distance over the node indices. -/
def get_index_of_nearest_node (ds : Dataset) (lon lat : ℚ) : ℕ :=
  let d : ℕ → ℚ := fun n =>
    (ds.lon.getD n 0 - lon) * (ds.lon.getD n 0 - lon)
      + (ds.lat.getD n 0 - lat) * (ds.lat.getD n 0 - lat)
  (List.range ds.nNodes).foldl (fun best n => if d n < d best then n else best) 0

/-- Title data of an `hv.Curve` produced by api.py: the variable name and
the two coordinates interpolated into the `f"{variable} - Lon=… Lat=…"`
title string (the `:.3f` formatting is rendering and is not modelled). -/
abbrev CurveTitle := String × ℚ × ℚ

/-- An `hv.Curve` as built by api.py: either `hv.Curve([])` (the empty
curve) or `hv.Curve(ts[variable])` (a time series), each with its title. -/
inductive Curve where
  | empty (title : CurveTitle)
  | series (seriesData : List ℚ) (title : CurveTitle)
deriving Repr, DecidableEq

/-- The stream classes of interest (`holoviews.streams`): `Tap`,
`PointerXY`, or any other stream class. -/
inductive StreamClass where
  | tap
  | pointerXY
  | other (name : String)
deriving Repr, DecidableEq

/-- The `gv.DynamicMap` built by `_get_stream_timeseries`: its callback
and the stream (class and initial x/y) it is attached to. -/
structure DynamicMap where
  callback : ℚ → ℚ → Curve
  stream : StreamClass
  streamX : ℚ
  streamY : ℚ

/-- The `callback` closure of `_get_stream_timeseries` (api.py:102-128),
closing over the (layer-selected, column-restricted) dataset `ds`, the
variable name and the source raster.  Outside the mesh it returns an
empty curve titled with the click coordinates; inside it returns the
nearest node's time series titled with that node's coordinates. -/
def stream_callback (ds : Dataset) (varName : String) (source_raster : Raster)
    (x y : ℚ) : Curve :=
  if ¬ is_point_in_the_mesh source_raster x y then
    Curve.empty (varName, x, y)
  else
    let node_index := get_index_of_nearest_node ds x y
    Curve.series (tsAtNode ds node_index)
      (varName, ds.lon.getD node_index 0, ds.lat.getD node_index 0)

/-- The rebinding of `ds` in `_get_stream_timeseries` (api.py:98-100):
select the layer when one is given, then restrict the columns to
`["lon", "lat", variable]`. -/
def stream_ds (ds : Dataset) (layer : Option ℕ) : Dataset :=
  select_vars (match layer with
    | some l => isel_layer ds l
    | none => ds)

/-- `_get_stream_timeseries` (api.py:87-132): reject any stream class
other than `Tap`/`PointerXY` with a `ValueError` before touching the
dataset; otherwise select the layer (when given), restrict the columns,
and attach the callback to a stream of the requested class at `(0, 0)`. -/
def _get_stream_timeseries (ds : Dataset) (varName : String)
    (source_raster : Raster) (stream_class : StreamClass)
    (layer : Option ℕ) : Except String DynamicMap :=
  if stream_class ≠ StreamClass.tap ∧ stream_class ≠ StreamClass.pointerXY then
    Except.error "Unsupported Stream class. Please choose either Tap or PointerXY"
  else
    Except.ok
      { callback := stream_callback (stream_ds ds layer) varName source_raster
        stream := stream_class
        streamX := 0
        streamY := 0 }

/-- `get_tap_timeseries` (api.py:135-148). -/
def get_tap_timeseries (ds : Dataset) (varName : String)
    (source_raster : Raster) (layer : Option ℕ) : Except String DynamicMap :=
  _get_stream_timeseries ds varName source_raster StreamClass.tap layer

/-- `get_pointer_timeseries` (api.py:151-164). -/
def get_pointer_timeseries (ds : Dataset) (varName : String)
    (source_raster : Raster) (layer : Option ℕ) : Except String DynamicMap :=
  _get_stream_timeseries ds varName source_raster StreamClass.pointerXY layer

/-- `extract_timeseries` (api.py:167-170): `ds[variable]` selected at the
nearest node's index. -/
def extract_timeseries (ds : Dataset) (varName : String) (lon lat : ℚ) :
    List ℚ :=
  let index := get_index_of_nearest_node ds lon lat
  tsAtNode ds index

/-- One row of the points dataframe built by `create_trimesh`:
`(lon, lat, value)` (the index columns are dropped by
`reset_index(drop=True)` / `drop(columns="time")`). -/
abbrev Row := ℚ × ℚ × ℚ

/-- Maximum of a list of values (`max` over the `time` dimension of one
node's column). -/
def listMax : List ℚ → ℚ
  | [] => 0
  | h :: t => t.foldl max h

/-- Minimum of a list of values. -/
def listMin : List ℚ → ℚ
  | [] => 0
  | h :: t => t.foldl min h

/-- The column of the variable's data at node `n` (over time). -/
def dataCol (ds : Dataset) (n : ℕ) : List ℚ :=
  ds.data.map (fun row => row.getD n 0)

/-- `ds[columns].max("time").to_dataframe()`: one row per node carrying
the per-node maximum over time. -/
def max_time_df (ds : Dataset) : List Row :=
  (List.range ds.nNodes).map (fun n =>
    (ds.lon.getD n 0, ds.lat.getD n 0, listMax (dataCol ds n)))

/-- `ds[columns].min("time").to_dataframe()`: one row per node carrying
the per-node minimum over time. -/
def min_time_df (ds : Dataset) : List Row :=
  (List.range ds.nNodes).map (fun n =>
    (ds.lon.getD n 0, ds.lat.getD n 0, listMin (dataCol ds n)))

/-- `ds.sel({"time": t})[columns].to_dataframe().drop(columns="time")`
with `t` resolved to the time index `i`: one row per node carrying that
time step's value, the time column dropped. -/
def sel_time_df (ds : Dataset) (i : ℕ) : List Row :=
  (List.range ds.nNodes).map (fun n =>
    (ds.lon.getD n 0, ds.lat.getD n 0, (ds.data.getD i []).getD n 0))

/-- `ds[columns].to_dataframe()` with no reduction: one row per
(time, node) pair, time-major as in the xarray MultiIndex. -/
def full_df (ds : Dataset) : List Row :=
  (List.range ds.times.length).flatMap (fun t =>
    (List.range ds.nNodes).map (fun n =>
      (ds.lon.getD n 0, ds.lat.getD n 0, (ds.data.getD t []).getD n 0)))

/-- A `gv.TriMesh`: the connectivity table paired with the points. -/
structure TriMesh where
  triangles : List (ℕ × ℕ × ℕ)
  points : List Row
deriving Repr, DecidableEq

/-- Python truthiness of a timestamp argument: `None` and the empty
string are falsy, every other string is truthy. -/
def truthy : Option String → Bool
  | none => false
  | some s => s ≠ ""

/-- `create_trimesh` (api.py:28-48), mirroring its `if`/`elif` chain.
A timestamp argument is `none` (Python `None`) or a string; `some ""`
is the falsy empty string.  `ds.sel({"time": t})` with a label absent
from the time axis raises (a `KeyError`), modelled as `none`. -/
def create_trimesh (ds : Dataset) (varName : String)
    (timestamp : Option String) (layer : Option ℕ) : Option TriMesh :=
  let ds1 := match layer with
    | some l => isel_layer ds l
    | none => ds
  let points : Option (List Row) :=
    if timestamp = some "max" then some (max_time_df ds1)
    else if timestamp = some "min" then some (min_time_df ds1)
    else if truthy timestamp then
      (ds1.times.findIdx? (fun s => s = timestamp.getD "")).map (sel_time_df ds1)
    else some (full_df ds1)
  points.map (fun pts => { triangles := ds1.triface_nodes, points := pts })

/-- A Python runtime error, as far as the claims need it. -/
inductive PyError where
  | nameError (name : String)
deriving Repr, DecidableEq

/-- Resolve each name of a list in turn against an environment (the
names a Python function body can see); the first unresolvable name
raises `NameError`. -/
def resolveNames (env : List String) : List String → Except PyError Unit
  | [] => Except.ok ()
  | n :: rest =>
      if n ∈ env then resolveNames env rest
      else Except.error (PyError.nameError n)

/-- The names defined at module scope of `thalassa/api.py`: the imports
(api.py:3-21), the module logger, and the functions the module defines. -/
def api_module_globals : List String :=
  ["logging", "gpd", "gv", "hv", "np", "pd", "pygeos", "shapely", "xr",
   "dynspread", "rasterize", "PointerXY", "Tap", "Stream",
   "get_index_of_nearest_node", "logger",
   "create_trimesh", "get_tiles", "get_wireframe", "get_raster",
   "is_point_in_the_mesh", "_get_stream_timeseries", "get_tap_timeseries",
   "get_pointer_timeseries", "extract_timeseries", "plot_timeseries",
   "generate_mesh_polygon"]

/-- The free names of the body of `plot_timeseries` (api.py:173-183)
in order of first use: line 174 reads `get_index_of_nearest_node`, `ds`,
`lon`, `lat`; lines 175-176 read `ds`; line 177 reads `x` and `y`;
lines 179-180 read `hv`, `ts` and `variable`. -/
def plot_timeseries_free_names : List String :=
  ["get_index_of_nearest_node", "ds", "lon", "lat", "ds", "ds",
   "x", "y", "hv", "ts", "variable", "ts", "ts"]

/-- `plot_timeseries` (api.py:173-183), as name resolution over its
environment: its locals are its parameters `ts`, `lon`, `lat` (plus
anything assigned before use), the globals are the module's.  The body's
data flow past a successful resolution is not modelled (`Unit`), since
resolution of `ds` decides every claim about this function. -/
def plot_timeseries (ts : List ℚ) (lon lat : ℚ) : Except PyError Unit :=
  let _ := (ts, lon, lat)
  resolveNames (["ts", "lon", "lat"] ++ api_module_globals)
    plot_timeseries_free_names

/-- A geometry as pygeos builds it here: a polygon from one coordinate
ring, or the coverage union of a list of geometries
(`pygeos.set_operations.coverage_union_all`, kept uninterpreted). -/
inductive Geometry where
  | polygon (ring : List (ℚ × ℚ))
  | coverageUnion (parts : List Geometry)
deriving Repr

/-- A `gpd.GeoDataFrame` reduced to its geometry column. -/
structure GeoDataFrame where
  geometry : List Geometry
deriving Repr

/-- One row of `polygons_coords` (api.py:202-224): the coordinate ring of
one triangle — the three nodes' coordinates looked up through the
`node` values (`first_nodes = ds.node.values[ds.triface_nodes.values[:, 0]]`
and so on), closed by repeating the first node's coordinates. -/
def triangleRing (ds : Dataset) (t : ℕ × ℕ × ℕ) : List (ℚ × ℚ) :=
  let firstNode := ds.node.getD t.1 0
  let secondNode := ds.node.getD t.2.1 0
  let thirdNode := ds.node.getD t.2.2 0
  [(ds.lon.getD firstNode 0, ds.lat.getD firstNode 0),
   (ds.lon.getD secondNode 0, ds.lat.getD secondNode 0),
   (ds.lon.getD thirdNode 0, ds.lat.getD thirdNode 0),
   (ds.lon.getD firstNode 0, ds.lat.getD firstNode 0)]

/-- `generate_mesh_polygon` (api.py:186-240): build the per-triangle
coordinate rings, run the sanity check that every ring is 4 points of 2
coordinates (`polygons_coords.shape[1:] != (4, 2)` raises
`ValueError("Something went wrong")`), take the coverage union of the
triangle polygons and wrap it as a one-row GeoDataFrame (the
`pygeos.to_wkt` / `shapely.wkt.loads` round trip through WKT text is
modelled as the identity on the geometry). -/
def generate_mesh_polygon (ds : Dataset) : Except String GeoDataFrame :=
  let polygons_coords := ds.triface_nodes.map (triangleRing ds)
  if ¬ polygons_coords.all (fun ring => ring.length = 4) then
    Except.error "Something went wrong"
  else
    let polygons := polygons_coords.map Geometry.polygon
    let polygon := Geometry.coverageUnion polygons
    Except.ok { geometry := [polygon] }

/-! ## Concrete instances used to exercise the theorems -/

/-- A small 2×2 raster with a value at every grid point. -/
def sampleRaster : Raster :=
  { lons := [0, 1]
    lats := [0, 1]
    vals := [[some 1, some 2], [some 3, some 4]] }

/-- A three-node, one-triangle dataset with two time steps and two
vertical layers. -/
def sampleDS : Dataset :=
  { node := [0, 1, 2]
    lon := [0, 1, 0]
    lat := [0, 0, 1]
    times := ["2001-01-01", "2001-01-02"]
    data := [[1, 2, 3], [4, 5, 6]]
    layerData := [[[1, 2, 3], [4, 5, 6]], [[7, 8, 9], [10, 11, 12]]]
    triface_nodes := [(0, 1, 2)] }

/-- The `DynamicMap` that `_get_stream_timeseries` builds on `sampleDS`
with a `Tap` stream. -/
def sampleDM : DynamicMap :=
  { callback := stream_callback (stream_ds sampleDS none) "elev" sampleRaster
    stream := StreamClass.tap
    streamX := 0
    streamY := 0 }

/-! ## Helper lemmas -/

theorem findCell_eq_none_of_lt_head (xs : List ℚ) (x : ℚ)
    (h : x < xs.headD 0) : findCell xs x = none := by
  cases xs with
  | nil => rfl
  | cons y ys =>
      unfold findCell
      exact if_pos (Or.inl h)

theorem findCell_eq_none_of_getLast_lt (xs : List ℚ) (x : ℚ)
    (h : xs.getLastD 0 < x) : findCell xs x = none := by
  cases xs with
  | nil => rfl
  | cons y ys =>
      unfold findCell
      exact if_pos (Or.inr h)

theorem interp_eq_none_of_outside (r : Raster) (lon lat : ℚ)
    (h : lon < r.lons.headD 0 ∨ r.lons.getLastD 0 < lon ∨
         lat < r.lats.headD 0 ∨ r.lats.getLastD 0 < lat) :
    interp r lon lat = none := by
  rcases h with h | h | h | h
  · simp [interp, findCell_eq_none_of_lt_head _ _ h]
  · simp [interp, findCell_eq_none_of_getLast_lt _ _ h]
  · cases hc : findCell r.lons lon with
    | none => simp [interp, hc]
    | some p =>
        cases p
        simp [interp, hc, findCell_eq_none_of_lt_head _ _ h]
  · cases hc : findCell r.lons lon with
    | none => simp [interp, hc]
    | some p =>
        cases p
        simp [interp, hc, findCell_eq_none_of_getLast_lt _ _ h]

/-! ## Claims -/

/-- C2: `is_point_in_the_mesh` returns `True` if and only if
interpolating the raster's data variable at `(lon, lat)` yields a
non-NaN value; in particular it returns `False` for every point outside
the raster's coordinate range, where interpolation yields NaN. -/
theorem is_point_in_the_mesh_iff_interp_not_nan (r : Raster) (lon lat : ℚ) :
    (is_point_in_the_mesh r lon lat = true ↔ interp r lon lat ≠ none) ∧
    ((lon < r.lons.headD 0 ∨ r.lons.getLastD 0 < lon ∨
      lat < r.lats.headD 0 ∨ r.lats.getLastD 0 < lat) →
      is_point_in_the_mesh r lon lat = false) := by
  constructor
  · simp [is_point_in_the_mesh, Option.isSome_iff_ne_none]
  · intro h
    simp [is_point_in_the_mesh, interp_eq_none_of_outside r lon lat h]

/-- Witness for C2 at a concrete raster and point: `(10, 0)` lies to the
right of the lon axis `[0, 1]`, so the containment test is `False`. -/
theorem is_point_in_the_mesh_iff_interp_not_nan_witness :
    is_point_in_the_mesh sampleRaster 10 0 = false :=
  (is_point_in_the_mesh_iff_interp_not_nan sampleRaster 10 0).2
    (Or.inr (Or.inl (by decide)))

/-- C1: for every tap/hover location `(x, y)` delivered to the stream
callback of a `DynamicMap` built by `_get_stream_timeseries`: if the
point falls within the covered mesh (`is_point_in_the_mesh` is `True`
for the source raster), the callback returns a `Curve` of the time
series of the nearest mesh node, titled with that node's coordinates;
otherwise it returns an empty `Curve` (the timeseries is omitted) titled
with the click coordinates. -/
theorem stream_callback_in_mesh_dichotomy (ds : Dataset) (varName : String)
    (r : Raster) (sc : StreamClass) (layer : Option ℕ) (dm : DynamicMap)
    (x y : ℚ)
    (h : _get_stream_timeseries ds varName r sc layer = Except.ok dm) :
    (is_point_in_the_mesh r x y = true →
      dm.callback x y =
        Curve.series
          (tsAtNode (stream_ds ds layer)
            (get_index_of_nearest_node (stream_ds ds layer) x y))
          (varName,
           (stream_ds ds layer).lon.getD
             (get_index_of_nearest_node (stream_ds ds layer) x y) 0,
           (stream_ds ds layer).lat.getD
             (get_index_of_nearest_node (stream_ds ds layer) x y) 0)) ∧
    (is_point_in_the_mesh r x y = false →
      dm.callback x y = Curve.empty (varName, x, y)) := by
  unfold _get_stream_timeseries at h
  split at h
  · exact absurd h (by simp)
  · cases h
    constructor
    · intro hin
      simp [stream_callback, hin]
    · intro hout
      simp [stream_callback, hout]

unseal Rat.mul Rat.sub Rat.add in
/-- Witness for C1 on the sample data: the point `(10, 0)` is outside
the raster and yields the empty curve titled with the click
coordinates; the point `(1, 0)` is inside, is nearest to node `1` at
`(1, 0)`, and yields that node's time series `[2, 5]` titled with the
node's coordinates. -/
theorem stream_callback_in_mesh_dichotomy_witness :
    sampleDM.callback 10 0 = Curve.empty ("elev", 10, 0) ∧
    sampleDM.callback 1 0 = Curve.series [2, 5] ("elev", 1, 0) :=
  ⟨(stream_callback_in_mesh_dichotomy sampleDS "elev" sampleRaster
      StreamClass.tap none sampleDM 10 0 rfl).2 (by decide),
   ((stream_callback_in_mesh_dichotomy sampleDS "elev" sampleRaster
      StreamClass.tap none sampleDM 1 0 rfl).1 (by decide)).trans (by decide)⟩

/-- C7: `get_tap_timeseries` and `get_pointer_timeseries` are each
exactly `_get_stream_timeseries` applied to the same `ds`, `variable`,
`source_raster` and `layer`, differing only in the stream class (`Tap`
for click, `PointerXY` for hover): the click and hover paths share one
pipeline. -/
theorem tap_and_pointer_share_pipeline (ds : Dataset) (varName : String)
    (r : Raster) (layer : Option ℕ) :
    get_tap_timeseries ds varName r layer =
      _get_stream_timeseries ds varName r StreamClass.tap layer ∧
    get_pointer_timeseries ds varName r layer =
      _get_stream_timeseries ds varName r StreamClass.pointerXY layer :=
  ⟨rfl, rfl⟩

/-- C5: `_get_stream_timeseries` raises `ValueError` if and only if the
stream class is neither `Tap` nor `PointerXY`; the error is raised
before reading or modifying the dataset (the result on an invalid
stream class is one fixed error value, for every dataset); consequently
`get_tap_timeseries` and `get_pointer_timeseries` never raise it. -/
theorem get_stream_timeseries_valueerror_iff (ds ds' : Dataset)
    (varName : String) (r : Raster) (sc : StreamClass) (layer : Option ℕ) :
    ((∃ e, _get_stream_timeseries ds varName r sc layer = Except.error e) ↔
      sc ≠ StreamClass.tap ∧ sc ≠ StreamClass.pointerXY) ∧
    (sc ≠ StreamClass.tap ∧ sc ≠ StreamClass.pointerXY →
      _get_stream_timeseries ds varName r sc layer =
        Except.error
          "Unsupported Stream class. Please choose either Tap or PointerXY" ∧
      _get_stream_timeseries ds varName r sc layer =
        _get_stream_timeseries ds' varName r sc layer) ∧
    (∃ dm, get_tap_timeseries ds varName r layer = Except.ok dm) ∧
    (∃ dm, get_pointer_timeseries ds varName r layer = Except.ok dm) := by
  refine ⟨⟨?_, ?_⟩, ?_, ?_, ?_⟩
  · rintro ⟨e, he⟩
    by_contra hc
    rw [_get_stream_timeseries, if_neg hc] at he
    cases he
  · intro hc
    exact ⟨_, by rw [_get_stream_timeseries, if_pos hc]⟩
  · intro hc
    constructor
    · rw [_get_stream_timeseries, if_pos hc]
    · rw [_get_stream_timeseries, if_pos hc,
          _get_stream_timeseries, if_pos hc]
  · exact ⟨_, by rw [get_tap_timeseries, _get_stream_timeseries,
      if_neg (by simp)]⟩
  · exact ⟨_, by rw [get_pointer_timeseries, _get_stream_timeseries,
      if_neg (by simp)]⟩

/-- Witness for C5: an unsupported stream class (holoviews
`Selection1D`, say) produces exactly the `ValueError`, on concrete
data. -/
theorem get_stream_timeseries_valueerror_iff_witness :
    _get_stream_timeseries sampleDS "elev" sampleRaster
      (StreamClass.other "Selection1D") none =
      Except.error
        "Unsupported Stream class. Please choose either Tap or PointerXY" :=
  ((get_stream_timeseries_valueerror_iff sampleDS sampleDS "elev"
      sampleRaster (StreamClass.other "Selection1D") none).2.1
    (by simp)).1

/-- C3: `extract_timeseries` returns exactly `ds[variable]` selected at
the node index computed by `get_index_of_nearest_node` for
`(lon, lat)`, i.e. the full time series (one value per time step)
associated with the nearest mesh node. -/
theorem extract_timeseries_is_nearest_node_series (ds : Dataset)
    (varName : String) (lon lat : ℚ) :
    extract_timeseries ds varName lon lat =
      tsAtNode ds (get_index_of_nearest_node ds lon lat) ∧
    (extract_timeseries ds varName lon lat).length = ds.data.length := by
  refine ⟨rfl, ?_⟩
  simp [extract_timeseries, tsAtNode]

/-- C8 (implicit): `extract_timeseries` performs no mesh-containment
check: for every coordinate pair — including a point outside the
covered mesh of any raster — it returns the nearest node's time series
and never signals an out-of-mesh condition, unlike the stream callback,
which omits the timeseries for such points. -/
theorem extract_timeseries_ignores_mesh_containment (ds : Dataset)
    (varName : String) (r : Raster) (lon lat : ℚ)
    (h : is_point_in_the_mesh r lon lat = false) :
    extract_timeseries ds varName lon lat =
      tsAtNode ds (get_index_of_nearest_node ds lon lat) ∧
    (∀ dm, _get_stream_timeseries ds varName r StreamClass.tap none =
        Except.ok dm →
      dm.callback lon lat = Curve.empty (varName, lon, lat)) := by
  refine ⟨rfl, ?_⟩
  intro dm hdm
  rw [_get_stream_timeseries, if_neg (by simp)] at hdm
  cases hdm
  simp [stream_callback, h]

/-- Witness for C8: `(10, 0)` is outside `sampleRaster`, yet
`extract_timeseries` still produces the nearest node's series. -/
theorem extract_timeseries_ignores_mesh_containment_witness :
    extract_timeseries sampleDS "elev" 10 0 =
      tsAtNode sampleDS (get_index_of_nearest_node sampleDS 10 0) :=
  (extract_timeseries_ignores_mesh_containment sampleDS "elev"
    sampleRaster 10 0 (by decide)).1

/-- C6: `create_trimesh` builds the point table as follows: when a layer
is given the vertical layer is selected first; then `timestamp = "max"`
takes the per-node maximum over time, `timestamp = "min"` the per-node
minimum, any other truthy timestamp selects exactly that time step
(dropping the time column), and a `None`/falsy timestamp keeps the data
unreduced; the returned `TriMesh` pairs these points with the dataset's
`triface_nodes` connectivity. -/
theorem create_trimesh_branch_structure (ds : Dataset) (varName : String) :
    (∀ timestamp l, create_trimesh ds varName timestamp (some l) =
      create_trimesh (isel_layer ds l) varName timestamp none) ∧
    create_trimesh ds varName (some "max") none =
      some { triangles := ds.triface_nodes, points := max_time_df ds } ∧
    create_trimesh ds varName (some "min") none =
      some { triangles := ds.triface_nodes, points := min_time_df ds } ∧
    (∀ t, t ≠ "max" → t ≠ "min" → t ≠ "" →
      create_trimesh ds varName (some t) none =
        (ds.times.findIdx? (fun s => s = t)).map
          (fun i =>
            { triangles := ds.triface_nodes, points := sel_time_df ds i })) ∧
    create_trimesh ds varName none none =
      some { triangles := ds.triface_nodes, points := full_df ds } ∧
    create_trimesh ds varName (some "") none =
      some { triangles := ds.triface_nodes, points := full_df ds } := by
  refine ⟨?_, rfl, rfl, ?_, rfl, rfl⟩
  · intro timestamp l
    rfl
  · intro t h1 h2 h3
    simp only [create_trimesh]
    rw [if_neg (by simp [h1]), if_neg (by simp [h2]),
        if_pos (by simp [truthy, h3])]
    rw [Option.map_map]
    rfl

/-- Witness for C6: selecting the concrete time label `"2001-01-02"`
on the sample dataset resolves to time index 1 and yields that time
step's per-node rows. -/
theorem create_trimesh_branch_structure_witness :
    create_trimesh sampleDS "elev" (some "2001-01-02") none =
      some { triangles := sampleDS.triface_nodes,
             points := sel_time_df sampleDS 1 } := by
  have h := (create_trimesh_branch_structure sampleDS "elev").2.2.2.1
    "2001-01-02" (by decide) (by decide) (by decide)
  rw [h]
  decide

/-- Every ring `generate_mesh_polygon` stacks has exactly 4 coordinate
pairs, so the sanity check on `polygons_coords` passes. -/
theorem mesh_rings_all_length_four (ds : Dataset) :
    ((ds.triface_nodes.map (triangleRing ds)).all
      (fun ring => ring.length = 4)) = true := by
  simp only [List.all_eq_true, List.mem_map]
  rintro ring ⟨t, _, rfl⟩
  simp [triangleRing]

/-- C4: on every dataset (with in-range connectivity indices, as numpy
fancy indexing requires), `generate_mesh_polygon` returns a
`GeoDataFrame` containing a single geometry equal to the coverage union
of the triangles, where each triangle's coordinate ring consists of 4
points: the triangle's three node coordinates, looked up through the
connectivity table, with the first node's coordinates repeated as the
closing point. -/
theorem generate_mesh_polygon_is_coverage_union (ds : Dataset)
    (hidx : ∀ t ∈ ds.triface_nodes,
      t.1 < ds.node.length ∧ t.2.1 < ds.node.length ∧ t.2.2 < ds.node.length)
    (hnode : ∀ n ∈ ds.node, n < ds.lon.length ∧ n < ds.lat.length) :
    generate_mesh_polygon ds =
      Except.ok
        { geometry :=
            [Geometry.coverageUnion
              (ds.triface_nodes.map
                (fun t => Geometry.polygon (triangleRing ds t)))] } ∧
    ∀ t ∈ ds.triface_nodes,
      (triangleRing ds t).length = 4 ∧
      (triangleRing ds t).headD (0, 0) = (triangleRing ds t).getLastD (0, 0) := by
  constructor
  · rw [generate_mesh_polygon,
        if_neg (by simp [mesh_rings_all_length_four ds]), List.map_map]
    rfl
  · intro t ht
    constructor
    · rfl
    · rfl

/-- Witness for C4: the sample one-triangle dataset, whose indices are
all in range, produces the one-row GeoDataFrame of the claim. -/
theorem generate_mesh_polygon_is_coverage_union_witness :
    generate_mesh_polygon sampleDS =
      Except.ok
        { geometry :=
            [Geometry.coverageUnion
              (sampleDS.triface_nodes.map
                (fun t => Geometry.polygon (triangleRing sampleDS t)))] } :=
  (generate_mesh_polygon_is_coverage_union sampleDS
    (by decide) (by decide)).1

/-- C9 (implicit): the sanity-check `ValueError("Something went wrong")`
in `generate_mesh_polygon` is unreachable: the stacked
`polygons_coords` array necessarily has trailing shape `(4, 2)` (every
ring it builds is 4 coordinate pairs), so the error branch is never
taken and the function always returns a `GeoDataFrame`. -/
theorem generate_mesh_polygon_sanity_check_unreachable (ds : Dataset) :
    generate_mesh_polygon ds ≠ Except.error "Something went wrong" ∧
    ∃ gdf, generate_mesh_polygon ds = Except.ok gdf := by
  constructor
  · rw [generate_mesh_polygon,
        if_neg (by simp [mesh_rings_all_length_four ds])]
    intro h
    cases h
  · exact ⟨_, by rw [generate_mesh_polygon,
      if_neg (by simp [mesh_rings_all_length_four ds])]⟩

/-- C10 (implicit): `plot_timeseries` fails on every invocation: its
body references the unbound name `ds` (and further unbound names `x`,
`y`, `variable`), none of which are parameters or module globals of
api.py, so for all arguments `(ts, lon, lat)` it raises `NameError`
(on `ds`, the first unbound name evaluated) and never returns a plot. -/
theorem plot_timeseries_always_raises_nameerror (ts : List ℚ) (lon lat : ℚ) :
    plot_timeseries ts lon lat = Except.error (PyError.nameError "ds") ∧
    "ds" ∉ api_module_globals ∧ "x" ∉ api_module_globals ∧
    "y" ∉ api_module_globals ∧ "variable" ∉ api_module_globals := by
  refine ⟨rfl, ?_, ?_, ?_, ?_⟩ <;> decide

/-- Witness for C9 on concrete data: the sample dataset never hits the
sanity-check error. -/
theorem generate_mesh_polygon_sanity_check_unreachable_witness :
    generate_mesh_polygon sampleDS ≠ Except.error "Something went wrong" :=
  (generate_mesh_polygon_sanity_check_unreachable sampleDS).1

/-- Witness for C10 at a concrete invocation: `NameError` on `ds`. -/
theorem plot_timeseries_always_raises_nameerror_witness :
    plot_timeseries [1] 0 0 = Except.error (PyError.nameError "ds") :=
  (plot_timeseries_always_raises_nameerror [1] 0 0).1
